import Mathlib

/-!
Verification of the Emergency Fund runway engine (treeline-emergency-fund).

The definitions below are a shallow embedding of the calculation logic in
src/src/index.ts (a Svelte view component).  JavaScript numbers are modelled
as rationals, JSON null as Option, and the external SQL engine's behaviour
(PERCENTILE_CONT, AVG ... FILTER, UNNEST, ON CONFLICT DO UPDATE) is modelled
by executable Lean functions following the standard semantics of those SQL
constructs.  Definitions whose name ends in Spec follow the wording of the
natural-language specification and are compared against the code-derived
definitions.
-/

namespace EmergencyFund

/-- Allocation kind of a fund allocation rule (types.ts FundAllocation.allocation_type:
"percentage" | "fixed"). -/
inductive AllocationType where
  | percentage
  | fixed
deriving DecidableEq, Repr

/-- One fund allocation rule (types.ts FundAllocation). -/
structure FundAllocation where
  account_id : String
  allocation_type : AllocationType
  allocation_value : ℚ
deriving DecidableEq, Repr

/-- Balance lookup used by calculateFundBalanceFromAllocations (index.ts:363):
`Number(balanceRows.find((r) => r[0] === alloc.account_id)?.[1]) || 0` —
a row is searched by account id, and a missing row degrades to 0. -/
def lookupBalance (balances : List (String × ℚ)) (accountId : String) : ℚ :=
  match balances.find? (fun p => p.1 == accountId) with
  | some p => p.2
  | none => 0

/-- Contribution of one allocation rule (index.ts:362-369): percentage rules
contribute `(accountBalance * alloc.allocation_value) / 100`, fixed rules
contribute `Math.min(alloc.allocation_value, accountBalance)`. -/
def allocationContribution (balances : List (String × ℚ)) (a : FundAllocation) : ℚ :=
  match a.allocation_type with
  | .percentage => lookupBalance balances a.account_id * a.allocation_value / 100
  | .fixed => min a.allocation_value (lookupBalance balances a.account_id)

/-- calculateFundBalanceFromAllocations (index.ts:340-371): early-returns 0 on an
empty rule list, otherwise accumulates the contributions with `fundBalance +=`. -/
def calculateFundBalanceFromAllocations
    (allocations : List FundAllocation) (balances : List (String × ℚ)) : ℚ :=
  if allocations.isEmpty then 0
  else allocations.foldl (fun acc a => acc + allocationContribution balances a) 0

/-- Modelled from the spec's wording for claim C1: the resolved fund balance is the
sum over rules of `balance * value / 100` for a Percentage rule and
`min(value, balance)` for a Fixed rule. -/
def resolveFundBalanceSpec
    (allocations : List FundAllocation) (balances : List (String × ℚ)) : ℚ :=
  (allocations.map (fun a =>
    match a.allocation_type with
    | .percentage => lookupBalance balances a.account_id * a.allocation_value / 100
    | .fixed => min a.allocation_value (lookupBalance balances a.account_id))).sum

/-- Runway status (types.ts RunwayData.status: "on-track" | "warning" | "critical"). -/
inductive RunwayStatus where
  | onTrack
  | warning
  | critical
deriving DecidableEq, Repr

/-- monthsOfRunway (index.ts:438):
`monthlyExpenses > 0 ? fundBalance / monthlyExpenses : 0`. -/
def monthsOfRunway (fundBalance monthlyExpenses : ℚ) : ℚ :=
  if 0 < monthlyExpenses then fundBalance / monthlyExpenses else 0

/-- progressPercent (index.ts:461):
`targetAmount > 0 ? (fundBalance / targetAmount) * 100 : 0`. -/
def progressPercent (fundBalance targetAmt : ℚ) : ℚ :=
  if 0 < targetAmt then fundBalance / targetAmt * 100 else 0

/-- runwayPercent (index.ts:465):
`targetMonths > 0 ? (monthsOfRunway / targetMonths) * 100 : 0`. -/
def runwayPercent (monthsRunway targetMonths : ℚ) : ℚ :=
  if 0 < targetMonths then monthsRunway / targetMonths * 100 else 0

/-- Status classification (index.ts:466-469): starts at "on-track";
`if (runwayPercent < 80) status = runwayPercent < 50 ? "critical" : "warning"`. -/
def runwayStatus (rp : ℚ) : RunwayStatus :=
  if rp < 80 then (if rp < 50 then .critical else .warning) else .onTrack

/-- External goal entity: only the dollar target matters for target resolution
(types.ts Goal.target_amount). -/
structure Goal where
  target_amount : ℚ
deriving DecidableEq, Repr

/-- New value of the autoTargetMonths component state after one calculateRunway
run (index.ts:444-456).  `linked` is the JS truthiness of config.linked_goal_id,
`foundGoal` the result of `goals.find(...)`, `prev` the value the state variable
held before the run (null right after mount).  Note the state is assigned only
when the goal is found and monthlyExpenses > 0, or in the not-linked else
branch; otherwise it keeps its previous value. -/
def autoTargetMonthsNext (linked : Bool) (foundGoal : Option Goal)
    (prev : Option ℚ) (monthlyExpenses : ℚ) : Option ℚ :=
  if linked then
    match foundGoal with
    | some g => if 0 < monthlyExpenses then some (g.target_amount / monthlyExpenses) else prev
    | none => prev
  else none

/-- Effective targetMonths computed by calculateRunway (index.ts:441-453):
initialized to `config.target_months ?? 6` and replaced by the auto-derived
`goal.target_amount / monthlyExpenses` exactly when a goal is linked and found,
monthlyExpenses > 0, the override flag is false and config.target_months is null. -/
def resolveTargetMonths (linked : Bool) (foundGoal : Option Goal) (overrideFlag : Bool)
    (cfgTargetMonths : Option ℚ) (monthlyExpenses : ℚ) : ℚ :=
  let base := cfgTargetMonths.getD 6
  if linked then
    match foundGoal with
    | some g =>
      if 0 < monthlyExpenses then
        if overrideFlag = false ∧ cfgTargetMonths = none then
          g.target_amount / monthlyExpenses
        else base
      else base
    | none => base
  else base

/-- targetAmount (index.ts:459): `monthlyExpenses * targetMonths`. -/
def targetAmountOf (linked : Bool) (foundGoal : Option Goal) (overrideFlag : Bool)
    (cfgTargetMonths : Option ℚ) (monthlyExpenses : ℚ) : ℚ :=
  monthlyExpenses * resolveTargetMonths linked foundGoal overrideFlag cfgTargetMonths monthlyExpenses

/-- Continuous-interpolation percentile, the semantics of SQL
`PERCENTILE_CONT(p) WITHIN GROUP (ORDER BY total)` used in the expense query
(index.ts:424-428): over the sorted values v_0..v_(n-1), let rank = p*(n-1);
the result interpolates linearly between v_floor(rank) and v_ceil(rank). -/
def percentileCont (p : ℚ) (l : List ℚ) : ℚ :=
  let s := l.insertionSort (· ≤ ·)
  let rank : ℚ := p * ((s.length : ℚ) - 1)
  let lo := (⌊rank⌋).toNat
  let hi := (⌈rank⌉).toNat
  let vlo := s.getD lo 0
  let vhi := s.getD hi 0
  vlo + (rank - (lo : ℚ)) * (vhi - vlo)

/-- The trimmed-mean branch of the expense query (index.ts:427):
`AVG(total) FILTER (WHERE total BETWEEN p10 AND p90)` with both percentile
bounds computed by PERCENTILE_CONT over the full monthly_totals set.  An AVG
over zero qualifying rows is SQL NULL, which the caller coerces to 0 via
`expenseRows[0]?.[0] || 0` (index.ts:434). -/
def trimmedMean (totals : List ℚ) : ℚ :=
  let p10 := percentileCont (1/10) totals
  let p90 := percentileCont (9/10) totals
  let kept := totals.filter (fun x => decide (p10 ≤ x) && decide (x ≤ p90))
  if kept.isEmpty then 0 else kept.sum / (kept.length : ℚ)

/-- Modelled from the spec's wording for claim C4: the arithmetic mean of the
monthly totals lying in the inclusive interval [10th percentile, 90th
percentile], both percentiles computed by continuous interpolation over the
full set of totals before any value is discarded. -/
def trimmedMeanSpec (totals : List ℚ) : ℚ :=
  let p10 := percentileCont (1/10) totals
  let p90 := percentileCont (9/10) totals
  let kept := totals.filter (fun x => decide (p10 ≤ x) && decide (x ≤ p90))
  kept.sum / (kept.length : ℚ)

/-- A transaction as seen by the breakdown query: its signed amount and its
tag list (empty list models a NULL/empty tags column). -/
structure BreakdownTxn where
  amount : ℚ
  tags : List String
deriving DecidableEq, Repr

/-- The WHERE clause shared by the expense and breakdown queries
(index.ts:519-523): keep outflows (`amount < 0`) that do not carry any
excluded tag (`AND NOT (list_contains(tags, t1) OR ...)`).  The account and
date filters select which transactions are in scope and are left implicit. -/
def includedTxn (excludedTags : List String) (t : BreakdownTxn) : Bool :=
  decide (t.amount < 0) && !(t.tags.any (fun tg => excludedTags.contains tg))

/-- Tag explosion of one transaction in the tagged_expenses CTE
(index.ts:515-524): `COALESCE(UNNEST(tags), 'Untagged') AS tag, ABS(amount)`
yields one (tag, |amount|) row per carried tag, and a single
("Untagged", |amount|) row for a transaction without tags. -/
def explodeTags (t : BreakdownTxn) : List (String × ℚ) :=
  if t.tags.isEmpty then [("Untagged", |t.amount|)]
  else t.tags.map (fun tg => (tg, |t.amount|))

/-- The tagged_expenses CTE (index.ts:515-524): filter, then explode by tag. -/
def taggedExpenses (excludedTags : List String) (txns : List BreakdownTxn) : List (String × ℚ) :=
  (txns.filter (includedTxn excludedTags)).flatMap explodeTags

/-- Per-tag total over the exploded rows (the `SUM(amount) ... GROUP BY tag`
of index.ts:528-533). -/
def tagTotal (rows : List (String × ℚ)) (tg : String) : ℚ :=
  ((rows.filter (fun p => p.1 == tg)).map Prod.snd).sum

/-- SQL `ROUND(q, 1)` as used on the reported percentages (index.ts:531);
for the nonnegative values arising here this is half-up rounding to one
decimal place. -/
def round1 (q : ℚ) : ℚ := ((⌊q * 10 + 1/2⌋ : ℤ) : ℚ) / 10

/-- The distinct tags produced by GROUP BY tag over the exploded rows. -/
def breakdownTags (rows : List (String × ℚ)) : List String :=
  (rows.map Prod.fst).dedup

/-- Sum of the percent_of_total values the breakdown query reports
(index.ts:528-534): per tag, `ROUND(SUM(amount) / grand_total * 100, 1)` where
grand_total is the sum of all post-explosion amounts (index.ts:525-527). -/
def percentSumRounded (excludedTags : List String) (txns : List BreakdownTxn) : ℚ :=
  let rows := taggedExpenses excludedTags txns
  let grand := (rows.map Prod.snd).sum
  ((breakdownTags rows).map (fun tg => round1 (tagTotal rows tg / grand * 100))).sum

/-- Sum of the same per-tag percentages before the one-decimal ROUND. -/
def percentSumUnrounded (excludedTags : List String) (txns : List BreakdownTxn) : ℚ :=
  let rows := taggedExpenses excludedTags txns
  let grand := (rows.map Prod.snd).sum
  ((breakdownTags rows).map (fun tg => tagTotal rows tg / grand * 100)).sum

/-- One row of sys_plugin_emergency_fund_snapshots (index.ts:169-180): primary
key snapshot_id (uuid default), UNIQUE snapshot_date, three numeric fields,
a notes column and a created_at default.  Ids and timestamps are Nat here. -/
structure SnapshotRow where
  snapshot_id : Nat
  snapshot_date : String
  fund_balance : ℚ
  monthly_expenses : ℚ
  months_of_runway : ℚ
  notes : Option String
  created_at : Nat
deriving DecidableEq, Repr

/-- The DO UPDATE arm of the upsert (index.ts:616-619): overwrite exactly the
three numeric fields of the conflicting row. -/
def updateNumerics (fb me mr : ℚ) (r : SnapshotRow) : SnapshotRow :=
  { r with fund_balance := fb, monthly_expenses := me, months_of_runway := mr }

/-- Date-key predicate for the UNIQUE(snapshot_date) constraint. -/
def sameDate (d : String) (r : SnapshotRow) : Bool :=
  r.snapshot_date == d

/-- addSnapshot (index.ts:602-626): `INSERT ... ON CONFLICT (snapshot_date) DO
UPDATE SET fund_balance = ..., monthly_expenses = ..., months_of_runway = ...`.
If a row with the date exists it is updated in place (snapshot_id, notes and
created_at untouched); otherwise a fresh row is appended with a new id and
created_at, and NULL notes. -/
def upsertSnapshot (store : List SnapshotRow) (d : String) (fb me mr : ℚ)
    (freshId : Nat) (now : Nat) : List SnapshotRow :=
  if store.any (sameDate d) then
    store.map (fun r => if sameDate d r then updateNumerics fb me mr r else r)
  else
    store ++ [⟨freshId, d, fb, me, mr, none, now⟩]

/-- JS truthiness of a nullable string (how `if (formLinkedGoalId ...)` and
`formLinkedGoalId && ...` read an Option String): null and the empty string
are falsy. -/
def strOptTruthy : Option String → Bool
  | none => false
  | some s => !(s == "")

/-- The persisted configuration fields that the claims touch
(sys_plugin_emergency_fund_config, index.ts:146-158). -/
structure EFConfig where
  linked_goal_id : Option String
  target_months : Option ℚ
  excluded_tags : List String
deriving DecidableEq, Repr

/-- The target_months value written by saveConfig (index.ts:554-557):
`formLinkedGoalId && !formTargetMonthsOverride ? "NULL" : formTargetMonths`. -/
def savedTargetMonths (formLinkedGoalId : Option String) (formOverride : Bool)
    (formTargetMonths : ℚ) : Option ℚ :=
  if strOptTruthy formLinkedGoalId && !formOverride then none else some formTargetMonths

/-- Effect of saveConfig on the singleton configuration row (index.ts:548-589):
both the UPDATE and the INSERT arm write the form values wholesale, with
target_months given by savedTargetMonths. -/
def saveConfig (formLinkedGoalId : Option String) (formOverride : Bool)
    (formTargetMonths : ℚ) (formExcludedTags : List String) : EFConfig :=
  { linked_goal_id := formLinkedGoalId
    target_months := savedTargetMonths formLinkedGoalId formOverride formTargetMonths
    excluded_tags := formExcludedTags }

/-- The component state quickExcludeTag can touch: the loaded configuration row
and the recomputed runway/breakdown state. -/
structure PluginState where
  config : Option EFConfig
  runwayFundBalance : Option ℚ
  expenseBreakdown : List (String × ℚ)
deriving DecidableEq, Repr

/-- quickExcludeTag (index.ts:685-705): early return when no config is loaded
or when the tag is the synthetic "Untagged" bucket; otherwise the persisted
excluded_tags list is extended with the tag and the derived state is
recomputed (loadConfig + calculateRunway, abstracted as `recompute` since it
reads the external store). -/
def quickExcludeTag (st : PluginState) (tag : String)
    (recompute : EFConfig → Option ℚ × List (String × ℚ)) : PluginState :=
  match st.config with
  | none => st
  | some cfg =>
    if tag = "Untagged" then st
    else
      let cfg2 : EFConfig := { cfg with excluded_tags := cfg.excluded_tags ++ [tag] }
      let r := recompute cfg2
      { config := some cfg2, runwayFundBalance := r.1, expenseBreakdown := r.2 }

/-- Folding the per-rule contributions from an arbitrary accumulator is the
accumulator plus the sum of the contributions. -/
theorem foldl_contribution_eq_sum (balances : List (String × ℚ))
    (l : List FundAllocation) (init : ℚ) :
    l.foldl (fun acc a => acc + allocationContribution balances a) init
      = init + (l.map (allocationContribution balances)).sum := by
  induction l generalizing init with
  | nil => simp
  | cons a l ih => simp [ih, add_assoc]

/-- C1: the resolved fund balance is the sum over rules of balance*value/100
for a Percentage rule and min(value, balance) for a Fixed rule; an account
missing from the balance mapping contributes with balance 0; the empty rule
list resolves to 0 (and the function is total, so no input raises an error). -/
theorem fund_balance_resolution (allocations : List FundAllocation)
    (balances : List (String × ℚ)) :
    calculateFundBalanceFromAllocations allocations balances
        = resolveFundBalanceSpec allocations balances
      ∧ calculateFundBalanceFromAllocations [] balances = 0
      ∧ ∀ accountId, balances.find? (fun p => p.1 == accountId) = none →
          lookupBalance balances accountId = 0 := by
  refine ⟨?_, rfl, ?_⟩
  · rw [calculateFundBalanceFromAllocations]
    cases allocations with
    | nil => simp [resolveFundBalanceSpec]
    | cons a l =>
      rw [if_neg (by simp), foldl_contribution_eq_sum, zero_add, resolveFundBalanceSpec]
      rfl
  · intro accountId h
    simp [lookupBalance, h]

/-- C1 witness: concrete instance discharging the hypothesis of the third
conjunct (an account id absent from the balance rows looks up to 0). -/
theorem fund_balance_resolution_witness :
    calculateFundBalanceFromAllocations [⟨"A", .fixed, 5000⟩] [("A", 10000)]
        = resolveFundBalanceSpec [⟨"A", .fixed, 5000⟩] [("A", 10000)]
      ∧ lookupBalance [("A", (10000 : ℚ))] "B" = 0 :=
  ⟨(fund_balance_resolution [⟨"A", .fixed, 5000⟩] [("A", 10000)]).1,
   (fund_balance_resolution [] [("A", (10000 : ℚ))]).2.2 "B" (by simp)⟩

/-- C2: with runway_percent as computed by the evaluator, the status is
critical exactly below 50, warning exactly on [50, 80), and on-track exactly
at or above 80 (and runway_percent itself is 100*months/target when the
target is positive, else 0). -/
theorem status_classification (monthsRunway targetMonths : ℚ) :
    (runwayStatus (runwayPercent monthsRunway targetMonths) = .critical ↔
        runwayPercent monthsRunway targetMonths < 50)
  ∧ (runwayStatus (runwayPercent monthsRunway targetMonths) = .warning ↔
        50 ≤ runwayPercent monthsRunway targetMonths
          ∧ runwayPercent monthsRunway targetMonths < 80)
  ∧ (runwayStatus (runwayPercent monthsRunway targetMonths) = .onTrack ↔
        80 ≤ runwayPercent monthsRunway targetMonths)
  ∧ (0 < targetMonths →
        runwayPercent monthsRunway targetMonths = 100 * monthsRunway / targetMonths)
  ∧ (targetMonths ≤ 0 → runwayPercent monthsRunway targetMonths = 0) := by
  set rp := runwayPercent monthsRunway targetMonths with hrp
  refine ⟨?_, ?_, ?_, fun h => ?_, fun h => ?_⟩
  · by_cases h50 : rp < 50
    · have h80 : rp < 80 := lt_trans h50 (by norm_num)
      simp [runwayStatus, h50, h80]
    · by_cases h80 : rp < 80
      · simp [runwayStatus, h50, h80]
      · simp [runwayStatus, h50, h80]
  · by_cases h50 : rp < 50
    · have h80 : rp < 80 := lt_trans h50 (by norm_num)
      simp [runwayStatus, h50, h80, not_le.2 h50]
    · by_cases h80 : rp < 80
      · simp [runwayStatus, h50, h80, not_lt.1 h50]
      · simp [runwayStatus, h50, h80]
  · by_cases h80 : rp < 80
    · by_cases h50 : rp < 50
      · simp [runwayStatus, h50, h80, not_le.2 h80]
      · simp [runwayStatus, h50, h80, not_le.2 h80]
    · have h50 : ¬ rp < 50 := fun hlt => h80 (lt_trans hlt (by norm_num))
      simp [runwayStatus, h80, h50, not_lt.1 h80]
  · rw [hrp, runwayPercent, if_pos h]
    ring
  · rw [hrp, runwayPercent, if_neg (not_lt.2 h)]

/-- C2 witness: the spec scenarios — runway 2.5 of target 6 is critical,
runway 5 of target 6 is on-track — via the classification theorem. -/
theorem status_classification_witness :
    runwayStatus (runwayPercent 2.5 6) = .critical ∧
    runwayStatus (runwayPercent 5 6) = .onTrack ∧
    runwayPercent 5 6 = 100 * 5 / 6 := by
  refine ⟨(status_classification 2.5 6).1.2 ?_, (status_classification 5 6).2.2.1.2 ?_,
    (status_classification 5 6).2.2.2.1 (by norm_num)⟩
  · rw [(status_classification 2.5 6).2.2.2.1 (by norm_num)]
    norm_num
  · rw [(status_classification 5 6).2.2.2.1 (by norm_num)]
    norm_num

/-- C3: with a goal linked and found, positive expenses, override false and a
null configured target, the effective target months is goal.target_amount /
monthly_expenses; whenever an explicit target is configured it wins; and the
target amount is always target months times monthly expenses. -/
theorem target_resolution (g : Goal) (linked : Bool) (foundGoal : Option Goal)
    (overrideFlag : Bool) (cfgTargetMonths : Option ℚ) (monthlyExpenses : ℚ) :
    (0 < monthlyExpenses →
        resolveTargetMonths true (some g) false none monthlyExpenses
          = g.target_amount / monthlyExpenses)
  ∧ (∀ v, cfgTargetMonths = some v →
        resolveTargetMonths linked foundGoal overrideFlag cfgTargetMonths monthlyExpenses = v)
  ∧ targetAmountOf linked foundGoal overrideFlag cfgTargetMonths monthlyExpenses
      = resolveTargetMonths linked foundGoal overrideFlag cfgTargetMonths monthlyExpenses
          * monthlyExpenses := by
  refine ⟨fun h => ?_, fun v hv => ?_, mul_comm _ _⟩
  · simp [resolveTargetMonths, h]
  · subst hv
    cases linked <;> cases foundGoal <;> simp [resolveTargetMonths]

/-- C3 witness: the spec scenario (goal target 24000, expenses 2000, no
override, null config target gives effective 12 months), the override case,
and the derived target amount, all via the resolution theorem. -/
theorem target_resolution_witness :
    resolveTargetMonths true (some ⟨24000⟩) false none 2000 = (24000 : ℚ) / 2000
  ∧ resolveTargetMonths true (some ⟨24000⟩) true (some 9) 2000 = 9
  ∧ targetAmountOf true (some ⟨24000⟩) false none 2000
      = resolveTargetMonths true (some ⟨24000⟩) false none 2000 * 2000 :=
  ⟨(target_resolution ⟨24000⟩ true (some ⟨24000⟩) false none 2000).1 (by norm_num),
   (target_resolution ⟨24000⟩ true (some ⟨24000⟩) true (some 9) 2000).2.1 9 rfl,
   (target_resolution ⟨24000⟩ true (some ⟨24000⟩) false none 2000).2.2⟩

/-- C5: every division hazard resolves to 0: months of runway is
fund/expenses only for positive expenses and 0 otherwise; progress percent is
0 for a nonpositive target amount; runway percent is 0 for nonpositive target
months (over ℚ no NaN or infinity can arise). -/
theorem division_guards (fundBalance monthlyExpenses targetAmt targetMonths monthsRunway : ℚ) :
    (0 < monthlyExpenses →
        monthsOfRunway fundBalance monthlyExpenses = fundBalance / monthlyExpenses)
  ∧ (monthlyExpenses ≤ 0 → monthsOfRunway fundBalance monthlyExpenses = 0)
  ∧ (targetAmt ≤ 0 → progressPercent fundBalance targetAmt = 0)
  ∧ (targetMonths ≤ 0 → runwayPercent monthsRunway targetMonths = 0) := by
  refine ⟨fun h => ?_, fun h => ?_, fun h => ?_, fun h => ?_⟩
  · rw [monthsOfRunway, if_pos h]
  · rw [monthsOfRunway, if_neg (not_lt.2 h)]
  · rw [progressPercent, if_neg (not_lt.2 h)]
  · rw [runwayPercent, if_neg (not_lt.2 h)]

/-- C5 witness: concrete guard instances via the guard theorem. -/
theorem division_guards_witness :
    monthsOfRunway 5000 1000 = 5000 / 1000
  ∧ monthsOfRunway 5000 0 = 0
  ∧ progressPercent 5000 0 = 0
  ∧ runwayPercent 5 0 = 0 :=
  ⟨(division_guards 5000 1000 0 0 5).1 (by norm_num),
   (division_guards 5000 0 0 0 5).2.1 le_rfl,
   (division_guards 5000 1000 0 0 5).2.2.1 le_rfl,
   (division_guards 5000 1000 0 0 5).2.2.2 le_rfl⟩

/-- C7 counterexample: after an evaluation with positive expenses has set the
auto target (24000/2000 = 12 months), a following evaluation with zero
monthly expenses and the goal still linked leaves auto_target_months at
some 12 — not null as the claim states. -/
theorem auto_target_not_nulled_counterexample :
    ¬ autoTargetMonthsNext true (some ⟨24000⟩)
        (autoTargetMonthsNext true (some ⟨24000⟩) none 2000) 0 = none := by
  intro hcontra
  have h12 : autoTargetMonthsNext true (some ⟨24000⟩)
      (autoTargetMonthsNext true (some ⟨24000⟩) none 2000) 0 = some 12 := by
    norm_num [autoTargetMonthsNext]
  rw [h12] at hcontra
  exact Option.noConfusion hcontra

/-- C7 amended: with a goal linked and found but zero monthly expenses, no
auto value is produced — autoTargetMonths keeps its previous value (null on
the first evaluation after mount) — and the effective target months falls
back to config.target_months or the default 6. -/
theorem auto_target_fallback (g : Goal) (prev : Option ℚ) (overrideFlag : Bool)
    (cfgTargetMonths : Option ℚ) :
    autoTargetMonthsNext true (some g) prev 0 = prev
  ∧ autoTargetMonthsNext true (some g) none 0 = none
  ∧ resolveTargetMonths true (some g) overrideFlag cfgTargetMonths 0
      = cfgTargetMonths.getD 6 := by
  refine ⟨?_, ?_, ?_⟩
  · simp [autoTargetMonthsNext]
  · simp [autoTargetMonthsNext]
  · simp [resolveTargetMonths]

/-- C9: a configuration save with a goal linked and the override flag false
persists a NULL target_months no matter what months value the form holds, so
a previously stored explicit value is discarded. -/
theorem save_config_nulls_target (goalId : String) (formTargetMonths : ℚ)
    (formExcludedTags : List String) (h : ¬ goalId = "") :
    (saveConfig (some goalId) false formTargetMonths formExcludedTags).target_months
      = none := by
  simp [saveConfig, savedTargetMonths, strOptTruthy, h]

/-- C9 witness: a save with goal "goal-1" linked, override off and 9 months in
the form persists NULL target_months. -/
theorem save_config_nulls_target_witness :
    (saveConfig (some "goal-1") false 9 []).target_months = none :=
  save_config_nulls_target "goal-1" 9 [] (by simp)

/-- C10: the quick-exclude action with the synthetic "Untagged" tag, or with
no configuration loaded, leaves the whole component state (persisted config
and computed state) unchanged; consequently "Untagged" can only appear in
excluded_tags after the action if it was already there before. -/
theorem quick_exclude_untagged_guard (st : PluginState) (tag : String)
    (recompute : EFConfig → Option ℚ × List (String × ℚ)) :
    (st.config = none ∨ tag = "Untagged" → quickExcludeTag st tag recompute = st)
  ∧ (∀ cfg2, (quickExcludeTag st tag recompute).config = some cfg2 →
        "Untagged" ∈ cfg2.excluded_tags →
        ∃ cfg, st.config = some cfg ∧ "Untagged" ∈ cfg.excluded_tags) := by
  constructor
  · rintro (h | h)
    · simp [quickExcludeTag, h]
    · subst h
      cases hc : st.config <;> simp [quickExcludeTag, hc]
  · intro cfg2 h hm
    cases hc : st.config with
    | none => simp [quickExcludeTag, hc] at h
    | some cfg =>
      by_cases ht : tag = "Untagged"
      · subst ht
        have hq : (quickExcludeTag st "Untagged" recompute).config = some cfg := by
          simp [quickExcludeTag, hc]
        rw [hq] at h
        refine ⟨cfg, rfl, ?_⟩
        rw [Option.some.inj h]
        exact hm
      · have hq : (quickExcludeTag st tag recompute).config
            = some { cfg with excluded_tags := cfg.excluded_tags ++ [tag] } := by
          simp [quickExcludeTag, hc, ht]
        rw [hq] at h
        refine ⟨cfg, rfl, ?_⟩
        rw [← Option.some.inj h] at hm
        rcases List.mem_append.1 hm with hin | hin
        · exact hin
        · exact absurd (List.mem_singleton.1 hin).symm ht

/-- C10 witness: with no config loaded the action is the identity, and the
Untagged membership conclusion at a state already containing "Untagged". -/
theorem quick_exclude_untagged_guard_witness :
    quickExcludeTag ⟨none, none, []⟩ "Groceries" (fun _ => (none, []))
        = ⟨none, none, []⟩
  ∧ ∃ cfg, (some (⟨none, none, ["Untagged"]⟩ : EFConfig)
        : Option EFConfig) = some cfg ∧ "Untagged" ∈ cfg.excluded_tags :=
  ⟨(quick_exclude_untagged_guard ⟨none, none, []⟩ "Groceries" (fun _ => (none, []))).1
      (Or.inl rfl),
   (quick_exclude_untagged_guard ⟨some ⟨none, none, ["Untagged"]⟩, none, []⟩ "Groceries"
      (fun _ => (none, []))).2 ⟨none, none, ["Untagged", "Groceries"]⟩ (by simp [quickExcludeTag])
      (by simp)⟩

/-- C4: for a nonempty list of monthly totals the trimmed-mean estimator is
exactly the arithmetic mean of the totals inside [10th percentile, 90th
percentile], with both percentiles interpolated over the full set before any
value is discarded — a single two-pass trim, not an iterative one.  (When no
total falls inside the bounds both sides are 0: the SQL AVG is NULL, coerced
to 0 by the caller, and the spec-side mean is the empty sum over the empty
count.) -/
theorem trimmed_mean_is_two_pass (totals : List ℚ) (h : totals ≠ []) :
    trimmedMean totals = trimmedMeanSpec totals := by
  rw [trimmedMean, trimmedMeanSpec]
  by_cases hk : (totals.filter (fun x =>
      decide (percentileCont (1/10) totals ≤ x) &&
        decide (x ≤ percentileCont (9/10) totals))).isEmpty
  · rw [if_pos hk]
    rw [List.isEmpty_iff.1 hk]
    simp
  · rw [if_neg hk]

/-- C4 witness: the spec scenario list [1000, 1200, 800] is nonempty and the
two definitions agree on it. -/
theorem trimmed_mean_is_two_pass_witness :
    ([1000, 1200, 800] : List ℚ) ≠ []
  ∧ trimmedMean [1000, 1200, 800] = trimmedMeanSpec [1000, 1200, 800] :=
  ⟨by simp, trimmed_mean_is_two_pass [1000, 1200, 800] (by simp)⟩

/-- Updating the numeric fields of a snapshot row does not change its date. -/
theorem sameDate_updateNumerics (d : String) (fb me mr : ℚ) (r : SnapshotRow) :
    sameDate d (updateNumerics fb me mr r) = sameDate d r := rfl

/-- Filtering the date-keyed update of a store by that date is the update of
the filtered rows. -/
theorem filter_map_updateNumerics (store : List SnapshotRow) (d : String) (fb me mr : ℚ) :
    (store.map (fun r => if sameDate d r then updateNumerics fb me mr r else r)).filter
        (sameDate d)
      = (store.filter (sameDate d)).map (updateNumerics fb me mr) := by
  induction store with
  | nil => rfl
  | cons r t ih =>
    cases hb : sameDate d r
    · simp [List.filter_cons, hb, ih]
    · simp [List.filter_cons, hb, sameDate_updateNumerics, ih]

/-- Upsert on a date already present in the store: the date's (unique) row is
updated in place. -/
theorem filter_upsert_of_found (store : List SnapshotRow) (d : String) (fb me mr : ℚ)
    (freshId now : Nat) (r0 : SnapshotRow) (h : store.filter (sameDate d) = [r0]) :
    (upsertSnapshot store d fb me mr freshId now).filter (sameDate d)
      = [updateNumerics fb me mr r0] := by
  have hmem : r0 ∈ store.filter (sameDate d) := by
    rw [h]
    exact List.mem_singleton.2 rfl
  have h1 := List.mem_filter.1 hmem
  have hany : store.any (sameDate d) = true := List.any_eq_true.2 ⟨r0, h1.1, h1.2⟩
  rw [upsertSnapshot, if_pos hany, filter_map_updateNumerics, h]
  rfl

/-- Upsert on a date absent from the store: a single fresh row is appended. -/
theorem filter_upsert_of_absent (store : List SnapshotRow) (d : String) (fb me mr : ℚ)
    (freshId now : Nat) (h : store.filter (sameDate d) = []) :
    (upsertSnapshot store d fb me mr freshId now).filter (sameDate d)
      = [⟨freshId, d, fb, me, mr, none, now⟩] := by
  have hany : store.any (sameDate d) = false := by
    rw [List.any_eq_false]
    intro x hx hpx
    have hmem : x ∈ store.filter (sameDate d) := List.mem_filter.2 ⟨hx, hpx⟩
    rw [h] at hmem
    exact absurd hmem (List.not_mem_nil x)
  rw [upsertSnapshot, if_neg (by simp [hany]), List.filter_append, h]
  simp [sameDate]

/-- C8: starting from a store satisfying the UNIQUE(snapshot_date) constraint,
two upserts on the same calendar date leave exactly one row for that date; it
carries the second call's three numeric values while its snapshot_id and
created_at are exactly those of the row present after the first call. -/
theorem snapshot_upsert_same_date (store : List SnapshotRow) (d : String)
    (fb1 me1 mr1 fb2 me2 mr2 : ℚ) (id1 t1 id2 t2 : Nat)
    (h : (store.filter (sameDate d)).length ≤ 1) :
    ∃ r1 r2,
      (upsertSnapshot store d fb1 me1 mr1 id1 t1).filter (sameDate d) = [r1]
    ∧ (upsertSnapshot (upsertSnapshot store d fb1 me1 mr1 id1 t1) d fb2 me2 mr2 id2 t2).filter
        (sameDate d) = [r2]
    ∧ r2.fund_balance = fb2 ∧ r2.monthly_expenses = me2 ∧ r2.months_of_runway = mr2
    ∧ r2.snapshot_id = r1.snapshot_id ∧ r2.created_at = r1.created_at := by
  match hf : store.filter (sameDate d) with
  | [] =>
    have h1 := filter_upsert_of_absent store d fb1 me1 mr1 id1 t1 hf
    have h2 := filter_upsert_of_found _ d fb2 me2 mr2 id2 t2 _ h1
    exact ⟨_, _, h1, h2, rfl, rfl, rfl, rfl, rfl⟩
  | [r0] =>
    have h1 := filter_upsert_of_found store d fb1 me1 mr1 id1 t1 r0 hf
    have h2 := filter_upsert_of_found _ d fb2 me2 mr2 id2 t2 _ h1
    exact ⟨_, _, h1, h2, rfl, rfl, rfl, rfl, rfl⟩
  | r0 :: rr :: tl =>
    rw [hf] at h
    simp at h

/-- C8 witness: two upserts of the same date into the empty store via the
upsert theorem. -/
theorem snapshot_upsert_same_date_witness :
    ∃ r1 r2,
      (upsertSnapshot [] "2025-01-01" 1 2 3 7 100).filter (sameDate "2025-01-01") = [r1]
    ∧ (upsertSnapshot (upsertSnapshot [] "2025-01-01" 1 2 3 7 100) "2025-01-01" 4 5 6 8 200).filter
        (sameDate "2025-01-01") = [r2]
    ∧ r2.fund_balance = 4 ∧ r2.monthly_expenses = 5 ∧ r2.months_of_runway = 6
    ∧ r2.snapshot_id = r1.snapshot_id ∧ r2.created_at = r1.created_at :=
  snapshot_upsert_same_date [] "2025-01-01" 1 2 3 4 5 6 7 100 8 200 (by simp)

/-- Per-tag total of a cons row splits off an indicator for the head row. -/
theorem tagTotal_cons (p : String × ℚ) (rows : List (String × ℚ)) (tg : String) :
    tagTotal (p :: rows) tg = (if p.1 = tg then p.2 else 0) + tagTotal rows tg := by
  rw [tagTotal, tagTotal, List.filter_cons]
  by_cases h : p.1 = tg
  · simp [h]
  · simp [h]

/-- Summing the per-tag totals over any finite tag set covering all rows gives
the grand total of all row amounts. -/
theorem finset_sum_tagTotal (rows : List (String × ℚ)) (s : Finset String)
    (hs : ∀ p ∈ rows, p.1 ∈ s) :
    (s.sum fun tg => tagTotal rows tg) = (rows.map Prod.snd).sum := by
  induction rows with
  | nil => simp [tagTotal]
  | cons p rows ih =>
    have hp : p.1 ∈ s := hs p (List.mem_cons_self p rows)
    have hrest : ∀ q ∈ rows, q.1 ∈ s := fun q hq => hs q (List.mem_cons_of_mem p hq)
    simp only [tagTotal_cons]
    rw [Finset.sum_add_distrib, ih hrest, Finset.sum_ite_eq s p.1 (fun _ => p.2), if_pos hp]
    simp

/-- Dividing and scaling each mapped value commutes with the list sum. -/
theorem sum_map_div_mul {α : Type} (l : List α) (f : α → ℚ) (g c : ℚ) :
    (l.map (fun x => f x / g * c)).sum = (l.map f).sum / g * c := by
  induction l with
  | nil => simp
  | cons a l ih => simp [ih, add_div, add_mul]

/-- Every exploded row of one transaction carries the transaction's absolute
amount as its value. -/
theorem snd_of_mem_explodeTags (t : BreakdownTxn) (p : String × ℚ)
    (hpe : p ∈ explodeTags t) : p.2 = |t.amount| := by
  rw [explodeTags] at hpe
  by_cases he : t.tags.isEmpty
  · rw [if_pos he] at hpe
    rw [List.mem_singleton.1 hpe]
  · rw [if_neg he] at hpe
    rcases List.mem_map.1 hpe with ⟨tg, _, rfl⟩
    rfl

/-- Every exploded row of the breakdown query carries a positive amount,
because only strict outflows pass the filter. -/
theorem pos_of_mem_taggedExpenses (excludedTags : List String) (txns : List BreakdownTxn)
    (p : String × ℚ) (hp : p ∈ taggedExpenses excludedTags txns) : 0 < p.2 := by
  rcases List.mem_flatMap.1 hp with ⟨t, ht, hpe⟩
  have hinc := (List.mem_filter.1 ht).2
  have hneg : t.amount < 0 := by
    rw [includedTxn, Bool.and_eq_true] at hinc
    exact of_decide_eq_true hinc.1
  rw [snd_of_mem_explodeTags t p hpe]
  exact abs_pos.2 (ne_of_lt hneg)

/-- C6 amended: whenever at least one transaction survives the exclusion
filter, the per-tag percentages computed before the one-decimal ROUND sum to
exactly 100 — both when some transaction carries several tags and when every
transaction carries exactly one — because the grand total is taken over the
post-explosion rows.  The reported (rounded) percentages can drift slightly
below or above 100. -/
theorem breakdown_unrounded_percent_sum (excludedTags : List String)
    (txns : List BreakdownTxn) (h : taggedExpenses excludedTags txns ≠ []) :
    percentSumUnrounded excludedTags txns = 100 := by
  have hG : 0 < ((taggedExpenses excludedTags txns).map Prod.snd).sum := by
    apply List.sum_pos
    · intro x hx
      rcases List.mem_map.1 hx with ⟨p, hp, rfl⟩
      exact pos_of_mem_taggedExpenses excludedTags txns p hp
    · simpa using h
  simp only [percentSumUnrounded]
  set rows := taggedExpenses excludedTags txns with hrows
  set G := (rows.map Prod.snd).sum with hGdef
  rw [sum_map_div_mul]
  have hnodup : ((rows.map Prod.fst).dedup).Nodup := List.nodup_dedup _
  have hsum1 : (((rows.map Prod.fst).dedup).map (fun tg => tagTotal rows tg)).sum
      = ((rows.map Prod.fst).dedup).toFinset.sum (fun tg => tagTotal rows tg) :=
    (List.sum_toFinset _ hnodup).symm
  have hfs : ((rows.map Prod.fst).dedup).toFinset = (rows.map Prod.fst).toFinset := by
    ext x
    simp [List.mem_dedup]
  have hmem : ∀ p ∈ rows, p.1 ∈ (rows.map Prod.fst).toFinset := by
    intro p hp
    exact List.mem_toFinset.2 (List.mem_map.2 ⟨p, hp, rfl⟩)
  rw [breakdownTags, hsum1, hfs, finset_sum_tagTotal rows _ hmem, ← hGdef,
    div_self (ne_of_gt hG), one_mul]

/-- C6 counterexample: two included transactions — one of amount 1 with the
two tags a, b and one of amount 1 with tag c — give three exploded rows of
one third of the grand total each; each reported percentage rounds to 33.3,
so they sum to 99.9 < 100 although a transaction carries more than one tag,
refuting the claimed lower bound of 100 for the reported values. -/
theorem breakdown_rounded_percent_counterexample :
    (∃ t ∈ ([⟨-1, ["a", "b"]⟩, ⟨-1, ["c"]⟩] : List BreakdownTxn).filter (includedTxn []),
        1 < t.tags.length)
  ∧ percentSumRounded [] [⟨-1, ["a", "b"]⟩, ⟨-1, ["c"]⟩] < 100 := by
  constructor
  · refine ⟨⟨-1, ["a", "b"]⟩, ?_, by simp⟩
    refine List.mem_filter.2 ⟨by simp, ?_⟩
    rw [includedTxn]
    norm_num
  · have h1 : taggedExpenses [] [⟨-1, ["a", "b"]⟩, ⟨-1, ["c"]⟩]
        = [("a", 1), ("b", 1), ("c", 1)] := by
      norm_num [taggedExpenses, includedTxn, explodeTags, List.filter, List.flatMap]
    have h2 : breakdownTags [("a", (1 : ℚ)), ("b", 1), ("c", 1)] = ["a", "b", "c"] := by
      simp [breakdownTags, List.dedup, List.pwFilter]
    have hr : round1 (100 / 3) = 333 / 10 := by
      rw [round1, show ((100 : ℚ) / 3 * 10 + 1 / 2) = 2003 / 6 by norm_num,
        show (⌊(2003 : ℚ) / 6⌋ : ℤ) = 333 by rw [Int.floor_eq_iff]; norm_num]
      norm_num
    simp only [percentSumRounded, h1, h2, List.map_cons, List.map_nil]
    simp only [tagTotal, List.filter_cons, List.filter_nil]
    simp
    rw [show (((1 : ℚ) + (1 + 1))⁻¹ * 100) = 100 / 3 by norm_num, hr]
    norm_num

/-- C6 witness for the amended theorem: on the counterexample's transactions
the unrounded percentages sum to exactly 100. -/
theorem breakdown_unrounded_percent_sum_witness :
    percentSumUnrounded [] [⟨-1, ["a", "b"]⟩, ⟨-1, ["c"]⟩] = 100 :=
  breakdown_unrounded_percent_sum [] [⟨-1, ["a", "b"]⟩, ⟨-1, ["c"]⟩] (by
    have h1 : taggedExpenses [] [⟨-1, ["a", "b"]⟩, ⟨-1, ["c"]⟩]
        = [("a", 1), ("b", 1), ("c", 1)] := by
      norm_num [taggedExpenses, includedTxn, explodeTags, List.filter, List.flatMap]
    rw [h1]
    simp)

end EmergencyFund
